import Mathlib

/-!
Verification development for `src/firstConsistentlyInteractiveDetector.js`
of the tti-polyfill repository.

The file shallowly embeds the `FirstConsistentlyInteractiveDetector` class as
a pure state machine:

* JS millisecond timestamps become `Int` (the claims are about control flow
  and ordering, never about floating-point rounding).
* The single `setTimeout` timer is tracked by an `armed` flag plus a fresh
  timer-id counter, mirroring `_timerId`; `clearTimeout` is always invoked by
  the source on the most recently created id, so clearing simply disarms.
* The stored promise resolver becomes an `Option Nat` promise id, and every
  invocation of the resolver is recorded in a `resolutions` journal, so
  "the promise fulfills exactly once" is a statement about that journal.
* `_timerActivationTime` starts as `-Infinity` in the source; it is modelled
  as `Option Int` with `none` standing for `-Infinity`.
* The fallible external signals (`document.readyState`, the `load` event,
  `performance.timing`, `window.chrome.loadTimes`) are explicit inputs.
* The detection engine (`firstConsistentlyInteractiveCore.js`, which is not
  part of the sources being verified) is an abstract `DetectionEngine`
  record of two functions; a concrete instance modelled from the spec is
  provided for witnesses and counterexamples.
-/

namespace TTIPolyfill

/-- JS truthiness of a nullable number: `null` and `0` are falsy. -/
def optTruthy : Option Int → Bool
  | none => false
  | some v => decide (v ≠ 0)

/-- JS coercion of a nullable number to a number (`null` behaves as `0` in
`Math.max` and arithmetic). -/
def jsNumber : Option Int → Int
  | none => 0
  | some v => v

/-- The in-flight request map `_incompleteJSInitiatedRequestStartTimes`
(a JS `Map` from request id to start time, insertion ordered). -/
abbrev RequestMap := List (String × Int)

/-- `Map.prototype.set`: overwrite in place if the key exists, else append. -/
def mapSet (k : String) (v : Int) : RequestMap → RequestMap
  | [] => [(k, v)]
  | (k2, v2) :: rest =>
      if k2 = k then (k2, v) :: rest else (k2, v2) :: mapSet k v rest

/-- `Map.prototype.delete`: remove the entry with the given key (with unique
keys this removes at most one entry); silently does nothing for an unknown
key. -/
def mapDelete (k : String) (m : RequestMap) : RequestMap :=
  m.filter (fun p => !(p.1 == k))

/-- The external detection engine of `firstConsistentlyInteractiveCore.js`
(not among the verified sources), abstracted by its interface:
`computeLastKnownNetwork2Busy(incompleteRequestStarts, observedNetworkRequests)`
and
`computeFirstConsistentlyInteractive(searchStart, minValue, lastBusy, currentTime, longTasks)`.
`minValue` is passed through as the nullable number the detector hands over. -/
structure DetectionEngine where
  computeLastKnownNetwork2Busy : List Int → List (Int × Int) → Int
  computeFirstConsistentlyInteractive :
    Int → Option Int → Int → Int → List (Int × Int) → Option Int

/-- The state of one `FirstConsistentlyInteractiveDetector` instance together
with the host-side bookkeeping the embedding needs (live timer flag, fresh id
counters, registered `load` listeners, and the journal of resolver
invocations). -/
structure Detector where
  useMutationObserver : Bool
  minValue : Option Int
  networkRequests : List (Int × Int)
  incompleteJSInitiatedRequestStartTimes : RequestMap
  timerId : Option Nat
  timerActivationTime : Option Int
  scheduleTimerTasks : Bool
  resolver : Option Nat
  armed : Bool
  nextTimerId : Nat
  nextPromiseId : Nat
  loadListeners : Nat
  resolutions : List (Option Nat × Int)
deriving DecidableEq

/-- The constructor: `config.minValue || null` (a config value of `0` is falsy
and becomes `null`), empty request structures, `_timerId = null`,
`_timerActivationTime = -Infinity`, scheduling off, no resolver.
`_registerListeners()` only patches fetch with the two request callbacks,
which the event model below delivers as `beforeReq`/`afterReq` events. -/
def initDetector (cfgMinValue : Option Int) (cfgUseMutationObserver : Bool) :
    Detector where
  useMutationObserver := cfgUseMutationObserver
  minValue := if optTruthy cfgMinValue then cfgMinValue else none
  networkRequests := []
  incompleteJSInitiatedRequestStartTimes := []
  timerId := none
  timerActivationTime := none
  scheduleTimerTasks := false
  resolver := none
  armed := false
  nextTimerId := 0
  nextPromiseId := 0
  loadListeners := 0
  resolutions := []

/-- `_timerActivationTime > earliestTime` with `none` standing for the initial
`-Infinity` (which is greater than nothing). -/
def actGTb : Option Int → Int → Bool
  | none, _ => false
  | some a, t => decide (t < a)

/-- Ordering on activation times used to state monotonicity; `none`
(`-Infinity`) is below everything. -/
def actLEb : Option Int → Option Int → Bool
  | none, _ => true
  | some _, none => false
  | some a, some b => decide (a ≤ b)

/-- `rescheduleTimer(earliestTime)`: no-op before `startSchedulingTimerTasks`;
no-op when the armed activation time is strictly greater than `earliestTime`;
otherwise `clearTimeout` on the current timer and `setTimeout` of a fresh one,
recording the new activation time. -/
def rescheduleTimer (s : Detector) (earliestTime : Int) : Detector :=
  if s.scheduleTimerTasks = false then s
  else if actGTb s.timerActivationTime earliestTime then s
  else
    { s with
      armed := true
      timerId := some s.nextTimerId
      nextTimerId := s.nextTimerId + 1
      timerActivationTime := some earliestTime }

/-- `startSchedulingTimerTasks()`: unconditionally set the scheduling flag and
call `rescheduleTimer(0)`. -/
def startSchedulingTimerTasks (s : Detector) : Detector :=
  rescheduleTimer { s with scheduleTimerTasks := true } 0

/-- `setMinValue(minValue)`. -/
def setMinValue (s : Detector) (v : Int) : Detector :=
  { s with minValue := some v }

/-- `disable()`: `clearTimeout(this._timerId)` (the field itself is not
cleared), scheduling off; `_unregisterListeners()` intentionally leaves the
patched fetch in place. -/
def disable (s : Detector) : Detector :=
  { s with armed := false, scheduleTimerTasks := false }

/-- `_beforeJSInitiatedRequestCallback(requestId)`: record `performance.now()`
for the id. -/
def beforeJSInitiatedRequestCallback (s : Detector) (requestId : String)
    (now : Int) : Detector :=
  { s with
    incompleteJSInitiatedRequestStartTimes :=
      mapSet requestId now s.incompleteJSInitiatedRequestStartTimes }

/-- `_afterJSInitiatedRequestCallback(requestId)`: delete the id from the
in-flight map. -/
def afterJSInitiatedRequestCallback (s : Detector) (requestId : String) :
    Detector :=
  { s with
    incompleteJSInitiatedRequestStartTimes :=
      mapDelete requestId s.incompleteJSInitiatedRequestStartTimes }

/-- The environment signals read during one `_checkTTI` run:
`performance.timing.navigationStart`, `performance.timing.domContentLoadedEventEnd`
(`0` while unavailable, as in the Navigation Timing API),
`window.chrome.loadTimes().firstPaintTime * 1000` when `window.chrome.loadTimes`
exists, and the two `performance.now()` reads (one at the top of the check,
one at the final reschedule). -/
structure CheckEnv where
  navigationStart : Int
  domContentLoadedEventEnd : Int
  chromeFirstPaintTime : Option Int
  now : Int
  nowEnd : Int
deriving DecidableEq

/-- `_getMinValue()`: the manually set `_minValue` if truthy, else
`domContentLoadedEventEnd - navigationStart` when `domContentLoadedEventEnd`
is truthy, else `null`. -/
def getMinValue (s : Detector) (env : CheckEnv) : Option Int :=
  if optTruthy s.minValue then s.minValue
  else if env.domContentLoadedEventEnd ≠ 0 then
    some (env.domContentLoadedEventEnd - env.navigationStart)
  else none

/-- `_incompleteRequestStarts`: the values of the in-flight map, in order. -/
def incompleteRequestStarts (s : Detector) : List Int :=
  s.incompleteJSInitiatedRequestStartTimes.map Prod.snd

/-- The `firstPaint` computation of `_checkTTI`: Chrome load times scaled to
ms minus `navigationStart`, else `0`. -/
def firstPaintOf (env : CheckEnv) : Int :=
  match env.chromeFirstPaintTime with
  | some fp => fp - env.navigationStart
  | none => 0

/-- `searchStart = firstPaint || (domContentLoadedEventEnd - navigationStart)`
(JS `||`: a `firstPaint` of `0` falls through). -/
def searchStartOf (env : CheckEnv) : Int :=
  if firstPaintOf env ≠ 0 then firstPaintOf env
  else env.domContentLoadedEventEnd - env.navigationStart

/-- The `lastBusy` input of `_checkTTI`. -/
def lastBusyOf (E : DetectionEngine) (s : Detector) : Int :=
  E.computeLastKnownNetwork2Busy (incompleteRequestStarts s) s.networkRequests

/-- The `maybeFCI` value computed by `_checkTTI` (the long-task list argument
is the literal `[]` of the source). -/
def maybeFCIOf (E : DetectionEngine) (env : CheckEnv) (s : Detector) :
    Option Int :=
  E.computeFirstConsistentlyInteractive (searchStartOf env)
    (getMinValue s env) (lastBusyOf E s) env.now []

/-- The `minValue === null` branch of `_checkTTI`: reschedule to
`Math.max(lastBusy + 5000, currentTime + 1000)`.  The source has no `return`
here, so execution falls through to the rest of the check. -/
def preCheck (E : DetectionEngine) (env : CheckEnv) (s : Detector) : Detector :=
  if getMinValue s env = none then
    rescheduleTimer s (max (lastBusyOf E s + 5000) (env.now + 1000))
  else s

/-- Invoking `this._firstConsistentlyInteractiveResolver(v)`: journal the
invocation against the currently stored promise id. -/
def resolveWith (s : Detector) (v : Int) : Detector :=
  { s with resolutions := s.resolutions ++ [(s.resolver, v)] }

/-- `_checkTTI()`: compute the inputs, take the (fall-through) null-`minValue`
reschedule, call the engine, resolve and `disable()` when `maybeFCI` is truthy
(a result of `0` is falsy and is not treated as found), and finally perform
the unconditional `rescheduleTimer(performance.now() + 1000)`. -/
def checkTTI (E : DetectionEngine) (env : CheckEnv) (s : Detector) : Detector :=
  rescheduleTimer
    (match maybeFCIOf E env s with
      | some fci =>
          if fci ≠ 0 then disable (resolveWith (preCheck E env s) fci)
          else preCheck E env s
      | none => preCheck E env s)
    (env.nowEnd + 1000)

/-- `getFirstConsistentlyInteractive()`: store a fresh resolver; if
`document.readyState == 'complete'` start scheduling synchronously, otherwise
register a `load` listener that will start scheduling. -/
def getFirstConsistentlyInteractive (s : Detector) (readyComplete : Bool) :
    Detector :=
  let s1 := { s with
    resolver := some s.nextPromiseId
    nextPromiseId := s.nextPromiseId + 1 }
  if readyComplete then startSchedulingTimerTasks s1
  else { s1 with loadListeners := s1.loadListeners + 1 }

/-- Run `startSchedulingTimerTasks` once per registered listener. -/
def iterEnable : Nat → Detector → Detector
  | 0, s => s
  | n + 1, s => iterEnable n (startSchedulingTimerTasks s)

/-- The one-shot `window` `load` event: every registered listener runs
`startSchedulingTimerTasks`; the event does not re-fire, so the listener
count drops to zero. -/
def fireLoad (s : Detector) : Detector :=
  iterEnable s.loadListeners { s with loadListeners := 0 }

/-- The observable events that can drive one detector instance. -/
inductive Ev where
  | getFCI (ready : Bool)
  | load
  | enable
  | setMin (v : Int)
  | reschedule (t : Int)
  | disable
  | beforeReq (id : String) (now : Int)
  | afterReq (id : String)
  | timerFire (E : DetectionEngine) (env : CheckEnv)
  | forceCheck (E : DetectionEngine) (env : CheckEnv)

/-- Events other than re-invoking the public entry points
(`getFirstConsistentlyInteractive`, a direct `startSchedulingTimerTasks`
call, or a forced `_checkTTI` invocation). -/
def Ev.benign : Ev → Bool
  | .getFCI _ => false
  | .enable => false
  | .forceCheck _ _ => false
  | _ => true

/-- Events that are a `getFirstConsistentlyInteractive` call. -/
def Ev.isGetFCI : Ev → Bool
  | .getFCI _ => true
  | _ => false

/-- Events that are a `setMinValue` call. -/
def Ev.isSetMin : Ev → Bool
  | .setMin _ => true
  | _ => false

/-- One step of the detector: the armed timer firing consumes the live timer
and runs `_checkTTI`; an unarmed `timerFire` cannot happen and is the
identity; `forceCheck` is a harness-forced `_checkTTI` call. -/
def step (s : Detector) : Ev → Detector
  | .getFCI ready => getFirstConsistentlyInteractive s ready
  | .load => fireLoad s
  | .enable => startSchedulingTimerTasks s
  | .setMin v => setMinValue s v
  | .reschedule t => rescheduleTimer s t
  | .disable => disable s
  | .beforeReq id now => beforeJSInitiatedRequestCallback s id now
  | .afterReq id => afterJSInitiatedRequestCallback s id
  | .timerFire E env => if s.armed then checkTTI E env { s with armed := false } else s
  | .forceCheck E env => checkTTI E env s

/-- Run a list of events. -/
def run (s : Detector) (evs : List Ev) : Detector :=
  evs.foldl step s

/-- Number of concurrently in-flight requests at time `t`, given the start
times of still-pending requests and the completed `(start, end)` records. -/
def inflightAt (pendingStarts : List Int) (completed : List (Int × Int))
    (t : Int) : Nat :=
  (pendingStarts.filter (fun a => decide (a ≤ t))).length +
    (completed.filter (fun p => decide (p.1 ≤ t ∧ t ≤ p.2))).length

/-- Modelled from the spec: `computeLastKnownNetwork2Busy` of
`firstConsistentlyInteractiveCore.js` (not among the verified sources).
Per the DetectionEngine contract, it returns the last time at which more than
two requests were concurrently in flight — concurrency only rises at a start
point, so the candidates are the start times — and the default baseline `0`
when concurrency never exceeded two. -/
def specComputeLastKnownNetwork2Busy (pendingStarts : List Int)
    (completed : List (Int × Int)) : Int :=
  ((pendingStarts ++ completed.map Prod.fst).filter
      (fun t => decide (2 < inflightAt pendingStarts completed t))).foldl max 0

/-- Modelled from the spec: `computeFirstConsistentlyInteractive` of
`firstConsistentlyInteractiveCore.js` (not among the verified sources).
It returns the earliest candidate `t` at or after `max(searchStart, minValue)`
whose trailing five-second window is quiet; network quiet is summarised by
`lastBusy` and main-thread quiet by the long-task end times, so the candidate
is the maximum of those signals, present exactly when its five-second window
has already elapsed by `currentTime`.  A `null` `minValue` coerces to `0` as
in JS arithmetic. -/
def specComputeFirstConsistentlyInteractive (searchStart : Int)
    (minValue : Option Int) (lastBusy currentTime : Int)
    (longTasks : List (Int × Int)) : Option Int :=
  let lastTaskEnd := (longTasks.map Prod.snd).foldl max 0
  let candidate :=
    max (max searchStart (jsNumber minValue)) (max lastBusy lastTaskEnd)
  if candidate + 5000 ≤ currentTime then some candidate else none

/-- The spec-modelled engine used to instantiate witnesses and
counterexamples. -/
def specEngine : DetectionEngine where
  computeLastKnownNetwork2Busy := specComputeLastKnownNetwork2Busy
  computeFirstConsistentlyInteractive := specComputeFirstConsistentlyInteractive

/-! ### Field-effect lemmas for the individual operations -/

theorem rescheduleTimer_of_not_sched {s : Detector} (h : s.scheduleTimerTasks = false)
    (t : Int) : rescheduleTimer s t = s := by
  unfold rescheduleTimer
  simp [h]

@[simp] theorem rescheduleTimer_resolutions (s : Detector) (t : Int) :
    (rescheduleTimer s t).resolutions = s.resolutions := by
  unfold rescheduleTimer
  split
  · rfl
  split <;> rfl

@[simp] theorem rescheduleTimer_resolver (s : Detector) (t : Int) :
    (rescheduleTimer s t).resolver = s.resolver := by
  unfold rescheduleTimer
  split
  · rfl
  split <;> rfl

@[simp] theorem rescheduleTimer_minValue (s : Detector) (t : Int) :
    (rescheduleTimer s t).minValue = s.minValue := by
  unfold rescheduleTimer
  split
  · rfl
  split <;> rfl

@[simp] theorem rescheduleTimer_sched (s : Detector) (t : Int) :
    (rescheduleTimer s t).scheduleTimerTasks = s.scheduleTimerTasks := by
  unfold rescheduleTimer
  split
  · rfl
  split <;> rfl

@[simp] theorem rescheduleTimer_loadListeners (s : Detector) (t : Int) :
    (rescheduleTimer s t).loadListeners = s.loadListeners := by
  unfold rescheduleTimer
  split
  · rfl
  split <;> rfl

@[simp] theorem rescheduleTimer_incomplete (s : Detector) (t : Int) :
    (rescheduleTimer s t).incompleteJSInitiatedRequestStartTimes =
      s.incompleteJSInitiatedRequestStartTimes := by
  unfold rescheduleTimer
  split
  · rfl
  split <;> rfl

@[simp] theorem rescheduleTimer_networkRequests (s : Detector) (t : Int) :
    (rescheduleTimer s t).networkRequests = s.networkRequests := by
  unfold rescheduleTimer
  split
  · rfl
  split <;> rfl

@[simp] theorem rescheduleTimer_nextPromiseId (s : Detector) (t : Int) :
    (rescheduleTimer s t).nextPromiseId = s.nextPromiseId := by
  unfold rescheduleTimer
  split
  · rfl
  split <;> rfl

theorem rescheduleTimer_armed_source {s : Detector} {t : Int}
    (h : (rescheduleTimer s t).armed = true) :
    s.scheduleTimerTasks = true ∨ s.armed = true := by
  unfold rescheduleTimer at h
  by_cases hs : s.scheduleTimerTasks = false
  · simp [hs] at h
    exact Or.inr h
  · exact Or.inl (by revert hs; cases s.scheduleTimerTasks <;> simp)

theorem actLEb_refl (a : Option Int) : actLEb a a = true := by
  cases a <;> simp [actLEb]

theorem rescheduleTimer_act_mono (s : Detector) (t : Int) :
    actLEb s.timerActivationTime (rescheduleTimer s t).timerActivationTime = true := by
  unfold rescheduleTimer
  split
  · exact actLEb_refl _
  split
  · exact actLEb_refl _
  · rename_i hgt
    cases h : s.timerActivationTime with
    | none => simp [actLEb]
    | some a =>
      simp only [h, actGTb, decide_eq_true_eq] at hgt
      simp only [actLEb, decide_eq_true_eq]
      omega

@[simp] theorem disable_resolutions (s : Detector) :
    (TTIPolyfill.disable s).resolutions = s.resolutions := rfl

@[simp] theorem disable_resolver (s : Detector) :
    (TTIPolyfill.disable s).resolver = s.resolver := rfl

@[simp] theorem disable_act (s : Detector) :
    (TTIPolyfill.disable s).timerActivationTime = s.timerActivationTime := rfl

@[simp] theorem disable_sched (s : Detector) :
    (TTIPolyfill.disable s).scheduleTimerTasks = false := rfl

@[simp] theorem disable_armed (s : Detector) :
    (TTIPolyfill.disable s).armed = false := rfl

@[simp] theorem disable_loadListeners (s : Detector) :
    (TTIPolyfill.disable s).loadListeners = s.loadListeners := rfl

@[simp] theorem resolveWith_resolutions (s : Detector) (v : Int) :
    (resolveWith s v).resolutions = s.resolutions ++ [(s.resolver, v)] := rfl

@[simp] theorem resolveWith_resolver (s : Detector) (v : Int) :
    (resolveWith s v).resolver = s.resolver := rfl

@[simp] theorem resolveWith_sched (s : Detector) (v : Int) :
    (resolveWith s v).scheduleTimerTasks = s.scheduleTimerTasks := rfl

@[simp] theorem resolveWith_armed (s : Detector) (v : Int) :
    (resolveWith s v).armed = s.armed := rfl

@[simp] theorem resolveWith_loadListeners (s : Detector) (v : Int) :
    (resolveWith s v).loadListeners = s.loadListeners := rfl

@[simp] theorem preCheck_resolutions (E : DetectionEngine) (env : CheckEnv)
    (s : Detector) : (preCheck E env s).resolutions = s.resolutions := by
  unfold preCheck
  split <;> simp

@[simp] theorem preCheck_resolver (E : DetectionEngine) (env : CheckEnv)
    (s : Detector) : (preCheck E env s).resolver = s.resolver := by
  unfold preCheck
  split <;> simp

@[simp] theorem preCheck_minValue (E : DetectionEngine) (env : CheckEnv)
    (s : Detector) : (preCheck E env s).minValue = s.minValue := by
  unfold preCheck
  split <;> simp

@[simp] theorem preCheck_sched (E : DetectionEngine) (env : CheckEnv)
    (s : Detector) : (preCheck E env s).scheduleTimerTasks = s.scheduleTimerTasks := by
  unfold preCheck
  split <;> simp

@[simp] theorem preCheck_loadListeners (E : DetectionEngine) (env : CheckEnv)
    (s : Detector) : (preCheck E env s).loadListeners = s.loadListeners := by
  unfold preCheck
  split <;> simp

@[simp] theorem preCheck_incomplete (E : DetectionEngine) (env : CheckEnv)
    (s : Detector) : (preCheck E env s).incompleteJSInitiatedRequestStartTimes =
      s.incompleteJSInitiatedRequestStartTimes := by
  unfold preCheck
  split <;> simp

@[simp] theorem preCheck_nextPromiseId (E : DetectionEngine) (env : CheckEnv)
    (s : Detector) : (preCheck E env s).nextPromiseId = s.nextPromiseId := by
  unfold preCheck
  split <;> simp

theorem preCheck_of_not_sched {s : Detector} (h : s.scheduleTimerTasks = false)
    (E : DetectionEngine) (env : CheckEnv) : preCheck E env s = s := by
  unfold preCheck
  split <;> simp [rescheduleTimer_of_not_sched h]

theorem preCheck_armed_source {E : DetectionEngine} {env : CheckEnv} {s : Detector}
    (h : (preCheck E env s).armed = true) :
    s.scheduleTimerTasks = true ∨ s.armed = true := by
  unfold preCheck at h
  split at h
  · exact rescheduleTimer_armed_source h
  · exact Or.inr h

/-! ### Decomposition of `checkTTI` -/

@[simp] theorem disable_minValue (s : Detector) :
    (TTIPolyfill.disable s).minValue = s.minValue := rfl

@[simp] theorem disable_incomplete (s : Detector) :
    (TTIPolyfill.disable s).incompleteJSInitiatedRequestStartTimes =
      s.incompleteJSInitiatedRequestStartTimes := rfl

@[simp] theorem disable_nextPromiseId (s : Detector) :
    (TTIPolyfill.disable s).nextPromiseId = s.nextPromiseId := rfl

@[simp] theorem disable_timerId (s : Detector) :
    (TTIPolyfill.disable s).timerId = s.timerId := rfl

@[simp] theorem disable_nextTimerId (s : Detector) :
    (TTIPolyfill.disable s).nextTimerId = s.nextTimerId := rfl

@[simp] theorem resolveWith_minValue (s : Detector) (v : Int) :
    (resolveWith s v).minValue = s.minValue := rfl

@[simp] theorem resolveWith_incomplete (s : Detector) (v : Int) :
    (resolveWith s v).incompleteJSInitiatedRequestStartTimes =
      s.incompleteJSInitiatedRequestStartTimes := rfl

@[simp] theorem resolveWith_nextPromiseId (s : Detector) (v : Int) :
    (resolveWith s v).nextPromiseId = s.nextPromiseId := rfl

@[simp] theorem resolveWith_timerId (s : Detector) (v : Int) :
    (resolveWith s v).timerId = s.timerId := rfl

@[simp] theorem resolveWith_nextTimerId (s : Detector) (v : Int) :
    (resolveWith s v).nextTimerId = s.nextTimerId := rfl

@[simp] theorem resolveWith_act (s : Detector) (v : Int) :
    (resolveWith s v).timerActivationTime = s.timerActivationTime := rfl

theorem checkTTI_resolved {E : DetectionEngine} {env : CheckEnv} {s : Detector}
    {r : Int} (h : maybeFCIOf E env s = some r) (hr : r ≠ 0) :
    checkTTI E env s = TTIPolyfill.disable (resolveWith (preCheck E env s) r) := by
  unfold checkTTI
  simp only [h]
  rw [if_pos hr]
  exact rescheduleTimer_of_not_sched (disable_sched _) _

theorem checkTTI_not_resolved {E : DetectionEngine} {env : CheckEnv} {s : Detector}
    (h : maybeFCIOf E env s = none ∨ maybeFCIOf E env s = some 0) :
    checkTTI E env s = rescheduleTimer (preCheck E env s) (env.nowEnd + 1000) := by
  unfold checkTTI
  rcases h with h | h
  · rw [h]
  · simp only [h]
    simp

theorem checkTTI_resolutions (E : DetectionEngine) (env : CheckEnv) (s : Detector) :
    (checkTTI E env s).resolutions = s.resolutions ++
      (match maybeFCIOf E env s with
        | some r => if r ≠ 0 then [(s.resolver, r)] else []
        | none => []) := by
  cases h : maybeFCIOf E env s with
  | none => rw [checkTTI_not_resolved (Or.inl h)]; simp
  | some r =>
    by_cases hr : r = 0
    · subst hr
      rw [checkTTI_not_resolved (Or.inr h)]
      simp
    · rw [checkTTI_resolved h hr]
      simp [hr]

@[simp] theorem checkTTI_resolver (E : DetectionEngine) (env : CheckEnv)
    (s : Detector) : (checkTTI E env s).resolver = s.resolver := by
  cases h : maybeFCIOf E env s with
  | none => rw [checkTTI_not_resolved (Or.inl h)]; simp
  | some r =>
    by_cases hr : r = 0
    · subst hr
      rw [checkTTI_not_resolved (Or.inr h)]
      simp
    · rw [checkTTI_resolved h hr]
      simp

@[simp] theorem checkTTI_minValue (E : DetectionEngine) (env : CheckEnv)
    (s : Detector) : (checkTTI E env s).minValue = s.minValue := by
  cases h : maybeFCIOf E env s with
  | none => rw [checkTTI_not_resolved (Or.inl h)]; simp
  | some r =>
    by_cases hr : r = 0
    · subst hr
      rw [checkTTI_not_resolved (Or.inr h)]
      simp
    · rw [checkTTI_resolved h hr]
      simp

@[simp] theorem checkTTI_incomplete (E : DetectionEngine) (env : CheckEnv)
    (s : Detector) : (checkTTI E env s).incompleteJSInitiatedRequestStartTimes =
      s.incompleteJSInitiatedRequestStartTimes := by
  cases h : maybeFCIOf E env s with
  | none => rw [checkTTI_not_resolved (Or.inl h)]; simp
  | some r =>
    by_cases hr : r = 0
    · subst hr
      rw [checkTTI_not_resolved (Or.inr h)]
      simp
    · rw [checkTTI_resolved h hr]
      simp

@[simp] theorem checkTTI_loadListeners (E : DetectionEngine) (env : CheckEnv)
    (s : Detector) : (checkTTI E env s).loadListeners = s.loadListeners := by
  cases h : maybeFCIOf E env s with
  | none => rw [checkTTI_not_resolved (Or.inl h)]; simp
  | some r =>
    by_cases hr : r = 0
    · subst hr
      rw [checkTTI_not_resolved (Or.inr h)]
      simp
    · rw [checkTTI_resolved h hr]
      simp

@[simp] theorem checkTTI_nextPromiseId (E : DetectionEngine) (env : CheckEnv)
    (s : Detector) : (checkTTI E env s).nextPromiseId = s.nextPromiseId := by
  cases h : maybeFCIOf E env s with
  | none => rw [checkTTI_not_resolved (Or.inl h)]; simp
  | some r =>
    by_cases hr : r = 0
    · subst hr
      rw [checkTTI_not_resolved (Or.inr h)]
      simp
    · rw [checkTTI_resolved h hr]
      simp

theorem checkTTI_armed_source {E : DetectionEngine} {env : CheckEnv} {s : Detector}
    (h : (checkTTI E env s).armed = true) :
    s.scheduleTimerTasks = true ∨ s.armed = true := by
  cases hm : maybeFCIOf E env s with
  | none =>
    rw [checkTTI_not_resolved (Or.inl hm)] at h
    rcases rescheduleTimer_armed_source h with h2 | h2
    · rw [preCheck_sched] at h2
      exact Or.inl h2
    · exact preCheck_armed_source h2
  | some r =>
    by_cases hr : r = 0
    · subst hr
      rw [checkTTI_not_resolved (Or.inr hm)] at h
      rcases rescheduleTimer_armed_source h with h2 | h2
      · rw [preCheck_sched] at h2
        exact Or.inl h2
      · exact preCheck_armed_source h2
    · rw [checkTTI_resolved hm hr] at h
      rw [disable_armed] at h
      cases h

/-! ### `startSchedulingTimerTasks`, `iterEnable`, `fireLoad` -/

@[simp] theorem startScheduling_resolutions (s : Detector) :
    (startSchedulingTimerTasks s).resolutions = s.resolutions := by
  unfold startSchedulingTimerTasks
  simp

@[simp] theorem startScheduling_resolver (s : Detector) :
    (startSchedulingTimerTasks s).resolver = s.resolver := by
  unfold startSchedulingTimerTasks
  simp

@[simp] theorem startScheduling_minValue (s : Detector) :
    (startSchedulingTimerTasks s).minValue = s.minValue := by
  unfold startSchedulingTimerTasks
  simp

@[simp] theorem startScheduling_sched (s : Detector) :
    (startSchedulingTimerTasks s).scheduleTimerTasks = true := by
  unfold startSchedulingTimerTasks
  simp

@[simp] theorem startScheduling_loadListeners (s : Detector) :
    (startSchedulingTimerTasks s).loadListeners = s.loadListeners := by
  unfold startSchedulingTimerTasks
  simp

@[simp] theorem startScheduling_nextPromiseId (s : Detector) :
    (startSchedulingTimerTasks s).nextPromiseId = s.nextPromiseId := by
  unfold startSchedulingTimerTasks
  simp

@[simp] theorem iterEnable_resolutions (n : Nat) (s : Detector) :
    (iterEnable n s).resolutions = s.resolutions := by
  induction n generalizing s with
  | zero => rfl
  | succ n ih => rw [iterEnable, ih, startScheduling_resolutions]

@[simp] theorem iterEnable_resolver (n : Nat) (s : Detector) :
    (iterEnable n s).resolver = s.resolver := by
  induction n generalizing s with
  | zero => rfl
  | succ n ih => rw [iterEnable, ih, startScheduling_resolver]

@[simp] theorem iterEnable_minValue (n : Nat) (s : Detector) :
    (iterEnable n s).minValue = s.minValue := by
  induction n generalizing s with
  | zero => rfl
  | succ n ih => rw [iterEnable, ih, startScheduling_minValue]

@[simp] theorem iterEnable_loadListeners (n : Nat) (s : Detector) :
    (iterEnable n s).loadListeners = s.loadListeners := by
  induction n generalizing s with
  | zero => rfl
  | succ n ih => rw [iterEnable, ih, startScheduling_loadListeners]

@[simp] theorem iterEnable_nextPromiseId (n : Nat) (s : Detector) :
    (iterEnable n s).nextPromiseId = s.nextPromiseId := by
  induction n generalizing s with
  | zero => rfl
  | succ n ih => rw [iterEnable, ih, startScheduling_nextPromiseId]

@[simp] theorem fireLoad_resolutions (s : Detector) :
    (fireLoad s).resolutions = s.resolutions := by
  unfold fireLoad
  simp

@[simp] theorem fireLoad_resolver (s : Detector) :
    (fireLoad s).resolver = s.resolver := by
  unfold fireLoad
  simp

@[simp] theorem fireLoad_minValue (s : Detector) :
    (fireLoad s).minValue = s.minValue := by
  unfold fireLoad
  simp

@[simp] theorem fireLoad_loadListeners (s : Detector) :
    (fireLoad s).loadListeners = 0 := by
  unfold fireLoad
  simp

@[simp] theorem fireLoad_nextPromiseId (s : Detector) :
    (fireLoad s).nextPromiseId = s.nextPromiseId := by
  unfold fireLoad
  simp

/-! ### Trace machinery and invariants -/

@[simp] theorem run_nil (s : Detector) : run s [] = s := rfl

@[simp] theorem run_cons (s : Detector) (e : Ev) (evs : List Ev) :
    run s (e :: evs) = run (step s e) evs := rfl

theorem run_preserve {P : Detector → Prop} {p : Ev → Bool}
    (hstep : ∀ s e, P s → p e = true → P (step s e)) :
    ∀ (evs : List Ev) (s : Detector), (∀ e ∈ evs, p e = true) → P s →
      P (run s evs) := by
  intro evs
  induction evs with
  | nil => intro s _ hP; exact hP
  | cons e evs ih =>
    intro s hall hP
    rw [run_cons]
    exact ih _ (fun x hx => hall x (List.mem_cons_of_mem _ hx))
      (hstep s e hP (hall e (List.mem_cons_self _ _)))

theorem maybeFCIOf_unarm (E : DetectionEngine) (env : CheckEnv) (s : Detector) :
    maybeFCIOf E env { s with armed := false } = maybeFCIOf E env s := rfl

theorem fireLoad_of_no_listeners {s : Detector} (h : s.loadListeners = 0) :
    fireLoad s = { s with loadListeners := 0 } := by
  unfold fireLoad
  rw [h]
  rfl

/-- A detector that has been shut down for good: scheduling off, no live
timer, no pending `load` listener. -/
def Dead (s : Detector) : Prop :=
  s.scheduleTimerTasks = false ∧ s.armed = false ∧ s.loadListeners = 0

theorem dead_step {s : Detector} {e : Ev} (hd : Dead s) (hb : e.benign = true) :
    Dead (step s e) ∧ (step s e).resolutions = s.resolutions := by
  obtain ⟨h1, h2, h3⟩ := hd
  cases e with
  | getFCI ready => cases hb
  | enable => cases hb
  | forceCheck E env => cases hb
  | load =>
    rw [step, fireLoad_of_no_listeners h3]
    exact ⟨⟨h1, h2, rfl⟩, rfl⟩
  | setMin v => exact ⟨⟨h1, h2, h3⟩, rfl⟩
  | reschedule t =>
    rw [step, rescheduleTimer_of_not_sched h1]
    exact ⟨⟨h1, h2, h3⟩, rfl⟩
  | disable => exact ⟨⟨rfl, rfl, h3⟩, rfl⟩
  | beforeReq id now => exact ⟨⟨h1, h2, h3⟩, rfl⟩
  | afterReq id => exact ⟨⟨h1, h2, h3⟩, rfl⟩
  | timerFire E env =>
    rw [step, if_neg (by rw [h2]; exact Bool.false_ne_true)]
    exact ⟨⟨h1, h2, h3⟩, rfl⟩

theorem dead_run {s : Detector} {evs : List Ev}
    (hd : Dead s) (hb : ∀ e ∈ evs, e.benign = true) :
    Dead (run s evs) ∧ (run s evs).resolutions = s.resolutions := by
  have := run_preserve
    (P := fun x => Dead x ∧ x.resolutions = s.resolutions) (p := Ev.benign)
    (fun x e hx he => by
      obtain ⟨hx1, hx2⟩ := hx
      obtain ⟨hy1, hy2⟩ := dead_step hx1 he
      exact ⟨hy1, hy2.trans hx2⟩)
    evs s hb ⟨hd, rfl⟩
  exact this

/-- The safety invariant of one normal detector lifetime: at most one
resolution ever, the detector is terminally off once resolved, and a live
scheduling phase implies the `load` listener has already been consumed. -/
def LifecycleInv (s : Detector) : Prop :=
  s.resolutions.length ≤ 1 ∧
  (s.resolutions ≠ [] →
    s.scheduleTimerTasks = false ∧ s.armed = false ∧ s.loadListeners = 0) ∧
  (s.scheduleTimerTasks = true → s.loadListeners = 0) ∧
  (s.armed = true → s.loadListeners = 0)

theorem checkTTI_lifecycle (E : DetectionEngine) (env : CheckEnv) {s : Detector}
    (hres : s.resolutions = []) (hll : s.loadListeners = 0) :
    LifecycleInv (checkTTI E env s) := by
  cases hm : maybeFCIOf E env s with
  | none =>
    rw [checkTTI_not_resolved (Or.inl hm)]
    refine ⟨?_, ?_, ?_, ?_⟩ <;> simp [hres, hll]
  | some r =>
    by_cases hr : r = 0
    · subst hr
      rw [checkTTI_not_resolved (Or.inr hm)]
      refine ⟨?_, ?_, ?_, ?_⟩ <;> simp [hres, hll]
    · rw [checkTTI_resolved hm hr]
      refine ⟨?_, ?_, ?_, ?_⟩ <;> simp [hres, hll]

theorem lifecycle_step {s : Detector} {e : Ev}
    (hi : LifecycleInv s) (hb : e.benign = true) : LifecycleInv (step s e) := by
  obtain ⟨h1, h2, h3, h4⟩ := hi
  cases e with
  | getFCI ready => cases hb
  | enable => cases hb
  | forceCheck E env => cases hb
  | load =>
    by_cases hres : s.resolutions = []
    · refine ⟨?_, ?_, ?_, ?_⟩ <;> simp [step, hres]
    · obtain ⟨hs, ha, hl⟩ := h2 hres
      rw [step, fireLoad_of_no_listeners hl]
      exact ⟨h1, fun _ => ⟨hs, ha, rfl⟩, fun _ => rfl, fun _ => rfl⟩
  | setMin v => exact ⟨h1, h2, h3, h4⟩
  | reschedule t =>
    by_cases hres : s.resolutions = []
    · refine ⟨?_, ?_, ?_, ?_⟩
      · simp [step, hres]
      · simp [step, hres]
      · rw [step, rescheduleTimer_sched, rescheduleTimer_loadListeners]
        exact h3
      · rw [step, rescheduleTimer_loadListeners]
        intro ha
        rcases rescheduleTimer_armed_source ha with h | h
        · exact h3 h
        · exact h4 h
    · obtain ⟨hs, _, _⟩ := h2 hres
      rw [step, rescheduleTimer_of_not_sched hs]
      exact ⟨h1, h2, h3, h4⟩
  | disable =>
    refine ⟨h1, ?_, ?_, ?_⟩
    · intro hres
      exact ⟨rfl, rfl, (h2 hres).2.2⟩
    · intro h
      cases h
    · intro h
      cases h
  | beforeReq id now => exact ⟨h1, h2, h3, h4⟩
  | afterReq id => exact ⟨h1, h2, h3, h4⟩
  | timerFire E env =>
    by_cases ha : s.armed = true
    · have hres : s.resolutions = [] := by
        by_contra hres
        rw [(h2 hres).2.1] at ha
        cases ha
      rw [step, if_pos ha]
      exact checkTTI_lifecycle E env (s := { s with armed := false }) hres (h4 ha)
    · rw [step, if_neg ha]
      exact ⟨h1, h2, h3, h4⟩

/-- The stored resolver is `p` and every resolver invocation so far went to
`p`; preserved by everything except a new `getFirstConsistentlyInteractive`
call. -/
def ResolverInv (p : Option Nat) (s : Detector) : Prop :=
  s.resolver = p ∧ ∀ pv ∈ s.resolutions, pv.1 = p

theorem resolver_checkTTI {p : Option Nat} {s : Detector}
    (hi : ResolverInv p s) (E : DetectionEngine) (env : CheckEnv) :
    ResolverInv p (checkTTI E env s) := by
  obtain ⟨h1, h2⟩ := hi
  refine ⟨by rw [checkTTI_resolver]; exact h1, ?_⟩
  intro pv hpv
  rw [checkTTI_resolutions] at hpv
  rcases List.mem_append.mp hpv with h | h
  · exact h2 pv h
  · cases hm : maybeFCIOf E env s with
    | none =>
      rw [hm] at h
      cases h
    | some r =>
      rw [hm] at h
      by_cases hr : r = 0
      · subst hr
        simp at h
      · simp [hr] at h
        rw [h]
        exact h1

theorem resolver_step {p : Option Nat} {s : Detector} {e : Ev}
    (hi : ResolverInv p s) (hne : e.isGetFCI = false) :
    ResolverInv p (step s e) := by
  obtain ⟨h1, h2⟩ := hi
  cases e with
  | getFCI ready => cases hne
  | load =>
    refine ⟨by rw [step, fireLoad_resolver]; exact h1, ?_⟩
    intro pv hpv
    rw [step, fireLoad_resolutions] at hpv
    exact h2 pv hpv
  | enable =>
    refine ⟨by rw [step, startScheduling_resolver]; exact h1, ?_⟩
    intro pv hpv
    rw [step, startScheduling_resolutions] at hpv
    exact h2 pv hpv
  | setMin v => exact ⟨h1, h2⟩
  | reschedule t =>
    refine ⟨by rw [step, rescheduleTimer_resolver]; exact h1, ?_⟩
    intro pv hpv
    rw [step, rescheduleTimer_resolutions] at hpv
    exact h2 pv hpv
  | disable => exact ⟨h1, h2⟩
  | beforeReq id now => exact ⟨h1, h2⟩
  | afterReq id => exact ⟨h1, h2⟩
  | timerFire E env =>
    rw [step]
    by_cases ha : s.armed = true
    · rw [if_pos ha]
      exact resolver_checkTTI (s := { s with armed := false }) ⟨h1, h2⟩ E env
    · rw [if_neg ha]
      exact ⟨h1, h2⟩
  | forceCheck E env => exact resolver_checkTTI ⟨h1, h2⟩ E env

theorem step_nextPromiseId {s : Detector} {e : Ev} (hne : e.isGetFCI = false) :
    (step s e).nextPromiseId = s.nextPromiseId := by
  cases e with
  | getFCI ready => cases hne
  | load => simp [step]
  | enable => simp [step]
  | setMin v => rfl
  | reschedule t => simp [step]
  | disable => rfl
  | beforeReq id now => rfl
  | afterReq id => rfl
  | timerFire E env =>
    rw [step]
    by_cases ha : s.armed = true
    · rw [if_pos ha, checkTTI_nextPromiseId]
    · rw [if_neg ha]
  | forceCheck E env => rw [step, checkTTI_nextPromiseId]

theorem step_minValue {s : Detector} {e : Ev} (hne : e.isSetMin = false) :
    (step s e).minValue = s.minValue := by
  cases e with
  | getFCI ready =>
    rw [step]
    unfold getFirstConsistentlyInteractive
    cases ready <;> simp
  | load => simp [step]
  | enable => simp [step]
  | setMin v => cases hne
  | reschedule t => simp [step]
  | disable => rfl
  | beforeReq id now => rfl
  | afterReq id => rfl
  | timerFire E env =>
    rw [step]
    by_cases ha : s.armed = true
    · rw [if_pos ha, checkTTI_minValue]
    · rw [if_neg ha]
  | forceCheck E env => rw [step, checkTTI_minValue]

/-! ### Helpers for the request map -/

theorem mapDelete_idem (k : String) (m : RequestMap) :
    mapDelete k (mapDelete k m) = mapDelete k m := by
  unfold mapDelete
  rw [List.filter_filter]
  congr 1
  funext p
  exact Bool.and_self _

theorem mapDelete_of_not_mem {k : String} {m : RequestMap}
    (h : ∀ e ∈ m, e.1 ≠ k) : mapDelete k m = m := by
  unfold mapDelete
  refine List.filter_eq_self.mpr ?_
  intro p hp
  simp only [Bool.not_eq_true', beq_eq_false_iff_ne, ne_eq]
  exact h p hp

theorem length_le_mapDelete_succ (k : String) (m : RequestMap)
    (h : (m.map Prod.fst).Nodup) : m.length ≤ (mapDelete k m).length + 1 := by
  induction m with
  | nil => simp [mapDelete]
  | cons p m ih =>
    rw [List.map_cons, List.nodup_cons] at h
    obtain ⟨hp, hm⟩ := h
    by_cases hk : p.1 = k
    · have hrest : mapDelete k m = m := by
        refine mapDelete_of_not_mem ?_
        intro e he heq
        apply hp
        rw [hk, ← heq]
        exact List.mem_map_of_mem Prod.fst he
      unfold mapDelete
      rw [List.filter_cons_of_neg (by simp [hk])]
      rw [show List.filter (fun p => !(p.1 == k)) m = m from hrest]
      simp
    · unfold mapDelete
      rw [List.filter_cons_of_pos (by simp [hk])]
      have := ih hm
      unfold mapDelete at this
      simpa using Nat.succ_le_succ this

/-! ### Claim C2 -/

/-- C2: for every sequence of `rescheduleTimer(t)` calls on one detector
instance, the sequence of values taken by `_timerActivationTime` (starting
from the value before the first call, with `none` standing for the initial
`-Infinity`) is non-decreasing: postpone-only scheduling. -/
theorem rescheduleTimer_activation_monotone (ts : List Int) (s : Detector) :
    List.Chain' (fun a b => actLEb a b = true)
      ((List.scanl rescheduleTimer s ts).map Detector.timerActivationTime) := by
  induction ts generalizing s with
  | nil => simp
  | cons t ts ih =>
    rw [List.scanl_cons, List.singleton_append, List.map_cons, List.chain'_cons']
    refine ⟨?_, ih (rescheduleTimer s t)⟩
    intro y hy
    cases ts with
    | nil =>
      simp only [List.scanl_nil, List.map_cons, List.map_nil, List.head?_cons,
        Option.mem_def, Option.some.injEq] at hy
      rw [← hy]
      exact rescheduleTimer_act_mono s t
    | cons t2 ts2 =>
      rw [List.scanl_cons, List.singleton_append, List.map_cons] at hy
      simp only [List.head?_cons, Option.mem_def, Option.some.injEq] at hy
      rw [← hy]
      exact rescheduleTimer_act_mono s t

/-- C2 witness: a concrete call sequence — postpone to 5000, attempt to pull
back to 200 (ignored), postpone to 7000 — yields the non-decreasing
activation chain. -/
theorem rescheduleTimer_activation_monotone_witness :
    List.Chain' (fun a b => actLEb a b = true)
      ((List.scanl rescheduleTimer
        (startSchedulingTimerTasks (initDetector none false))
        [5000, 200, 7000]).map Detector.timerActivationTime) :=
  rescheduleTimer_activation_monotone [5000, 200, 7000]
    (startSchedulingTimerTasks (initDetector none false))

/-! ### Claim C3 -/

/-- C3 (amended): for every `rescheduleTimer(earliestTime)` call while
enabled, the call is ignored exactly when `earliestTime` is **strictly less**
than the current `_timerActivationTime`; otherwise — including the case
`earliestTime = _timerActivationTime` — the outstanding timer is cancelled, a
fresh timer is armed for `earliestTime`, and `_timerActivationTime` is set to
`earliestTime`. -/
theorem rescheduleTimer_branches (s : Detector) (t : Int)
    (h : s.scheduleTimerTasks = true) :
    (actGTb s.timerActivationTime t = true → rescheduleTimer s t = s) ∧
    (actGTb s.timerActivationTime t = false →
      rescheduleTimer s t =
        { s with
          armed := true
          timerId := some s.nextTimerId
          nextTimerId := s.nextTimerId + 1
          timerActivationTime := some t }) := by
  refine ⟨fun hgt => ?_, fun hgt => ?_⟩ <;> simp [rescheduleTimer, h, hgt]

/-- C3 witness: on a freshly enabled detector (activation time `0`), a
reschedule to `5` takes the arming branch of `rescheduleTimer_branches`. -/
theorem rescheduleTimer_branches_witness :
    (startSchedulingTimerTasks (initDetector none false)).scheduleTimerTasks = true ∧
    actGTb (startSchedulingTimerTasks (initDetector none false)).timerActivationTime 5 = false ∧
    rescheduleTimer (startSchedulingTimerTasks (initDetector none false)) 5 =
      { (startSchedulingTimerTasks (initDetector none false)) with
        armed := true
        timerId := some 1
        nextTimerId := 2
        timerActivationTime := some 5 } :=
  ⟨by decide, by decide,
    ((rescheduleTimer_branches (startSchedulingTimerTasks (initDetector none false)) 5
      (by decide)).2 (by decide)).trans (by decide)⟩

/-- C3 counterexample: with the armed activation time equal to `0`, the call
`rescheduleTimer(0)` satisfies `earliestTime ≤ _timerActivationTime`, yet it
is not ignored: the outstanding timer (id 0) is cancelled and a fresh timer
(id 1) is armed, so the detector state changes. -/
theorem rescheduleTimer_equal_time_rearms_cex :
    (startSchedulingTimerTasks (initDetector none false)).timerActivationTime = some 0 ∧
    (startSchedulingTimerTasks (initDetector none false)).scheduleTimerTasks = true ∧
    rescheduleTimer (startSchedulingTimerTasks (initDetector none false)) 0 ≠
      startSchedulingTimerTasks (initDetector none false) := by
  decide

/-! ### Claim C9 -/

/-- C9: `_afterJSInitiatedRequestCallback(id)` is a total function (it never
throws), calling it twice for the same id equals calling it once, calling it
for an id not in the in-flight map leaves the detector unchanged, every entry
with a different id survives, and — because the JS `Map` keys are unique — it
removes at most one entry (and never adds any). -/
theorem afterJSInitiatedRequestCallback_idempotent (id : String) (s : Detector) :
    afterJSInitiatedRequestCallback (afterJSInitiatedRequestCallback s id) id =
      afterJSInitiatedRequestCallback s id ∧
    ((∀ e ∈ s.incompleteJSInitiatedRequestStartTimes, e.1 ≠ id) →
      afterJSInitiatedRequestCallback s id = s) ∧
    (∀ e ∈ s.incompleteJSInitiatedRequestStartTimes, e.1 ≠ id →
      e ∈ (afterJSInitiatedRequestCallback s id).incompleteJSInitiatedRequestStartTimes) ∧
    ((s.incompleteJSInitiatedRequestStartTimes.map Prod.fst).Nodup →
      s.incompleteJSInitiatedRequestStartTimes.length ≤
        (afterJSInitiatedRequestCallback s id).incompleteJSInitiatedRequestStartTimes.length + 1) ∧
    (afterJSInitiatedRequestCallback s id).incompleteJSInitiatedRequestStartTimes.length ≤
      s.incompleteJSInitiatedRequestStartTimes.length := by
  refine ⟨?_, ?_, ?_, ?_, ?_⟩
  · unfold afterJSInitiatedRequestCallback
    simp only [mapDelete_idem]
  · intro hunk
    unfold afterJSInitiatedRequestCallback
    rw [mapDelete_of_not_mem hunk]
  · intro e he hne
    unfold afterJSInitiatedRequestCallback mapDelete
    exact List.mem_filter.mpr ⟨he, by simp [hne]⟩
  · intro hnd
    exact length_le_mapDelete_succ id _ hnd
  · exact List.length_filter_le _ _

/-- C9 witness: a detector tracking requests `a` and `b`: completing the
unknown id `c` is a no-op, and completing `a` twice equals completing it
once. -/
theorem afterJSInitiatedRequestCallback_idempotent_witness :
    afterJSInitiatedRequestCallback
      (beforeJSInitiatedRequestCallback
        (beforeJSInitiatedRequestCallback (initDetector none false) "a" 10) "b" 20) "c" =
    beforeJSInitiatedRequestCallback
      (beforeJSInitiatedRequestCallback (initDetector none false) "a" 10) "b" 20 ∧
    afterJSInitiatedRequestCallback
      (afterJSInitiatedRequestCallback
        (beforeJSInitiatedRequestCallback
          (beforeJSInitiatedRequestCallback (initDetector none false) "a" 10) "b" 20) "a") "a" =
    afterJSInitiatedRequestCallback
      (beforeJSInitiatedRequestCallback
        (beforeJSInitiatedRequestCallback (initDetector none false) "a" 10) "b" 20) "a" :=
  ⟨(afterJSInitiatedRequestCallback_idempotent "c"
      (beforeJSInitiatedRequestCallback
        (beforeJSInitiatedRequestCallback (initDetector none false) "a" 10) "b" 20)).2.1
      (by decide),
   (afterJSInitiatedRequestCallback_idempotent "a"
      (beforeJSInitiatedRequestCallback
        (beforeJSInitiatedRequestCallback (initDetector none false) "a" 10) "b" 20)).1⟩

/-! ### Claim C5 -/

/-- C5 (amended): the effective minimum value used by a detection attempt is
the override when one has been set to a **nonzero** value (the JS truthiness
test `if (this._minValue)` ignores an override of `0`), else
`domContentLoadedEventEnd − navigationStart` when `domContentLoadedEventEnd`
is nonzero (available), else null; no operation other than `setMinValue`
changes the stored override, so a nonzero override set before the first check
is used by that check and every later one. -/
theorem getMinValue_override_nonzero_spec (s : Detector) (env env2 : CheckEnv)
    (E : DetectionEngine) :
    (∀ v : Int, s.minValue = some v → v ≠ 0 → getMinValue s env = some v) ∧
    (optTruthy s.minValue = false → env.domContentLoadedEventEnd ≠ 0 →
      getMinValue s env = some (env.domContentLoadedEventEnd - env.navigationStart)) ∧
    (optTruthy s.minValue = false → env.domContentLoadedEventEnd = 0 →
      getMinValue s env = none) ∧
    (checkTTI E env2 s).minValue = s.minValue ∧
    (∀ v : Int, s.minValue = some v → v ≠ 0 →
      getMinValue (checkTTI E env2 s) env = some v) ∧
    (∀ e : Ev, e.isSetMin = false → (step s e).minValue = s.minValue) := by
  refine ⟨?_, ?_, ?_, checkTTI_minValue E env2 s, ?_, ?_⟩
  · intro v hv hv0
    unfold getMinValue
    rw [hv]
    simp [optTruthy, hv0]
  · intro ht hd
    unfold getMinValue
    rw [ht]
    simp [hd]
  · intro ht hd
    unfold getMinValue
    rw [ht, hd]
    simp
  · intro v hv hv0
    unfold getMinValue
    rw [checkTTI_minValue, hv]
    simp [optTruthy, hv0]
  · intro e he
    exact step_minValue he

/-- C5 witness: an override of `20000` set before the first check is the
effective minimum value of that check and of the one after a full `_checkTTI`
run, regardless of the DOMContentLoaded signal. -/
theorem getMinValue_override_nonzero_spec_witness :
    getMinValue (setMinValue (initDetector none false) 20000)
      ⟨1000, 3000, none, 0, 0⟩ = some 20000 ∧
    getMinValue
      (checkTTI specEngine ⟨1000, 3000, none, 8000, 8000⟩
        (setMinValue (initDetector none false) 20000))
      ⟨1000, 3000, none, 0, 0⟩ = some 20000 :=
  ⟨(getMinValue_override_nonzero_spec (setMinValue (initDetector none false) 20000)
      ⟨1000, 3000, none, 0, 0⟩ ⟨1000, 3000, none, 8000, 8000⟩ specEngine).1
      20000 rfl (by decide),
   (getMinValue_override_nonzero_spec (setMinValue (initDetector none false) 20000)
      ⟨1000, 3000, none, 0, 0⟩ ⟨1000, 3000, none, 8000, 8000⟩ specEngine).2.2.2.2.1
      20000 rfl (by decide)⟩

/-- C5 counterexample: an override of `0` set via `setMinValue` is ignored by
the truthiness test: with `domContentLoadedEventEnd = 5000` and
`navigationStart = 2000`, the effective minimum value is `3000`, not the
override `0` — refuting "the override value if one has been set". -/
theorem getMinValue_zero_override_ignored_cex :
    (setMinValue (initDetector none false) 0).minValue = some 0 ∧
    getMinValue (setMinValue (initDetector none false) 0)
      ⟨2000, 5000, none, 0, 0⟩ = some 3000 := by
  decide

/-! ### Claim C6 -/

/-- C6 (amended): after `disable()` (scheduling off, no live timer), a forced
`_checkTTI` invocation leaves the timer id, the activation time, the request
map, the stored `minValue`, the resolver and the timer-id counter unchanged,
arms no timer and keeps scheduling off; when the engine reports no result (or
the falsy result `0`) the state is exactly unchanged — but the detection
engine is still consulted, and a present nonzero result still invokes the
resolver. -/
theorem checkTTI_after_disable_effects (E : DetectionEngine) (env : CheckEnv)
    (s : Detector) (hs : s.scheduleTimerTasks = false) (ha : s.armed = false) :
    (checkTTI E env s).timerId = s.timerId ∧
    (checkTTI E env s).timerActivationTime = s.timerActivationTime ∧
    (checkTTI E env s).armed = false ∧
    (checkTTI E env s).scheduleTimerTasks = false ∧
    (checkTTI E env s).incompleteJSInitiatedRequestStartTimes =
      s.incompleteJSInitiatedRequestStartTimes ∧
    (checkTTI E env s).resolver = s.resolver ∧
    (checkTTI E env s).minValue = s.minValue ∧
    (checkTTI E env s).nextTimerId = s.nextTimerId ∧
    ((maybeFCIOf E env s = none ∨ maybeFCIOf E env s = some 0) →
      checkTTI E env s = s) ∧
    (∀ r : Int, maybeFCIOf E env s = some r → r ≠ 0 →
      (checkTTI E env s).resolutions = s.resolutions ++ [(s.resolver, r)]) := by
  have hpre : preCheck E env s = s := preCheck_of_not_sched hs E env
  cases hm : maybeFCIOf E env s with
  | none =>
    have heq : checkTTI E env s = s := by
      rw [checkTTI_not_resolved (Or.inl hm), hpre, rescheduleTimer_of_not_sched hs]
    rw [heq]
    exact ⟨rfl, rfl, ha, hs, rfl, rfl, rfl, rfl, fun _ => rfl,
      fun r hmr => by cases hmr⟩
  | some r0 =>
    by_cases hr0 : r0 = 0
    · subst hr0
      have heq : checkTTI E env s = s := by
        rw [checkTTI_not_resolved (Or.inr hm), hpre, rescheduleTimer_of_not_sched hs]
      rw [heq]
      refine ⟨rfl, rfl, ha, hs, rfl, rfl, rfl, rfl, fun _ => rfl, ?_⟩
      intro r hmr hr
      exact absurd (Option.some.inj hmr).symm hr
    · have heq : checkTTI E env s = TTIPolyfill.disable (resolveWith s r0) := by
        rw [checkTTI_resolved hm hr0, hpre]
      rw [heq]
      refine ⟨rfl, rfl, rfl, rfl, rfl, rfl, rfl, rfl, ?_, ?_⟩
      · intro hcon
        rcases hcon with hcon | hcon
        · cases hcon
        · exact absurd (Option.some.inj hcon) hr0
      · intro r hmr hr
        rw [← Option.some.inj hmr]
        rfl

/-- C6 witness: a freshly enabled then disabled detector: a forced check in
a quiet environment leaves the timer state untouched, but (per the amended
claim's last clause) still resolves with the nonzero engine result `2000`. -/
theorem checkTTI_after_disable_effects_witness :
    (TTIPolyfill.disable (getFirstConsistentlyInteractive (initDetector none false) true)).scheduleTimerTasks = false ∧
    (checkTTI specEngine ⟨1000, 3000, none, 8000, 8000⟩
      (TTIPolyfill.disable (getFirstConsistentlyInteractive (initDetector none false) true))).timerActivationTime =
      (TTIPolyfill.disable (getFirstConsistentlyInteractive (initDetector none false) true)).timerActivationTime ∧
    (checkTTI specEngine ⟨1000, 3000, none, 8000, 8000⟩
      (TTIPolyfill.disable (getFirstConsistentlyInteractive (initDetector none false) true))).armed = false :=
  ⟨by decide,
   (checkTTI_after_disable_effects specEngine ⟨1000, 3000, none, 8000, 8000⟩
      (TTIPolyfill.disable (getFirstConsistentlyInteractive (initDetector none false) true))
      (by decide) (by decide)).2.1,
   (checkTTI_after_disable_effects specEngine ⟨1000, 3000, none, 8000, 8000⟩
      (TTIPolyfill.disable (getFirstConsistentlyInteractive (initDetector none false) true))
      (by decide) (by decide)).2.2.1⟩

/-- C6 counterexample: `disable()` and then force `_checkTTI` in an
environment where the engine finds the nonzero result `2000`: the supposedly
dead detector invokes the resolver, so the forced check is **not** a no-op
and does resolve the promise, refuting the claim as stated. -/
theorem checkTTI_after_disable_resolves_cex :
    (TTIPolyfill.disable (getFirstConsistentlyInteractive (initDetector none false) true)).scheduleTimerTasks = false ∧
    (TTIPolyfill.disable (getFirstConsistentlyInteractive (initDetector none false) true)).resolutions = [] ∧
    (checkTTI specEngine ⟨1000, 3000, none, 8000, 8000⟩
      (TTIPolyfill.disable (getFirstConsistentlyInteractive (initDetector none false) true))).resolutions =
      [(some 0, 2000)] := by
  decide

/-! ### Claim C8 -/

/-- C8 (amended): `startSchedulingTimerTasks` always sets the scheduling
flag and then calls `rescheduleTimer(0)`; a check with target time `0` is
armed exactly when the current activation time is not greater than `0` (in
particular on a fresh instance, whose activation time is `-Infinity`); when
the detector already carries an activation time greater than `0` — e.g. a
repeat call while enabled, or re-enabling after `disable()` — nothing beyond
the flag changes and no timer is armed by the call. -/
theorem startSchedulingTimerTasks_behavior (s : Detector) :
    (startSchedulingTimerTasks s).scheduleTimerTasks = true ∧
    (actGTb s.timerActivationTime 0 = true →
      startSchedulingTimerTasks s = { s with scheduleTimerTasks := true }) ∧
    (actGTb s.timerActivationTime 0 = false →
      startSchedulingTimerTasks s =
        { s with
          scheduleTimerTasks := true
          armed := true
          timerId := some s.nextTimerId
          nextTimerId := s.nextTimerId + 1
          timerActivationTime := some 0 }) := by
  refine ⟨startScheduling_sched s, fun hgt => ?_, fun hgt => ?_⟩ <;>
    simp [startSchedulingTimerTasks, rescheduleTimer, hgt]

/-- C8 witness: on a fresh instance the first `startSchedulingTimerTasks`
call arms a check with target time `0`. -/
theorem startSchedulingTimerTasks_behavior_witness :
    actGTb (initDetector none false).timerActivationTime 0 = false ∧
    startSchedulingTimerTasks (initDetector none false) =
      { (initDetector none false) with
        scheduleTimerTasks := true
        armed := true
        timerId := some 0
        nextTimerId := 1
        timerActivationTime := some 0 } :=
  ⟨by decide,
    ((startSchedulingTimerTasks_behavior (initDetector none false)).2.2
      (by decide)).trans (by decide)⟩

/-- C8 counterexample: enable, postpone the check to `5000`, `disable()`,
then call `startSchedulingTimerTasks` again: the call is effective (the
detector moves from disabled back into the scheduling state) yet it triggers
no check — no timer is armed at all, because the stale activation time
`5000` makes the inner `rescheduleTimer(0)` a no-op. This refutes "every
effective call immediately triggers a check with target time 0". -/
theorem startSchedulingTimerTasks_reenable_no_check_cex :
    (TTIPolyfill.disable (rescheduleTimer
      (startSchedulingTimerTasks (initDetector none false)) 5000)).scheduleTimerTasks = false ∧
    (startSchedulingTimerTasks (TTIPolyfill.disable (rescheduleTimer
      (startSchedulingTimerTasks (initDetector none false)) 5000))).scheduleTimerTasks = true ∧
    (startSchedulingTimerTasks (TTIPolyfill.disable (rescheduleTimer
      (startSchedulingTimerTasks (initDetector none false)) 5000))).armed = false ∧
    (startSchedulingTimerTasks (TTIPolyfill.disable (rescheduleTimer
      (startSchedulingTimerTasks (initDetector none false)) 5000))).timerActivationTime =
      some 5000 := by
  decide

/-! ### Further step lemmas for the lifecycle claims -/

theorem benign_not_getFCI {e : Ev} (h : e.benign = true) : e.isGetFCI = false := by
  cases e <;> first | rfl | cases h

@[simp] theorem getFCI_resolver (s : Detector) (b : Bool) :
    (getFirstConsistentlyInteractive s b).resolver = some s.nextPromiseId := by
  cases b <;> simp [getFirstConsistentlyInteractive]

@[simp] theorem getFCI_resolutions (s : Detector) (b : Bool) :
    (getFirstConsistentlyInteractive s b).resolutions = s.resolutions := by
  cases b <;> simp [getFirstConsistentlyInteractive]

@[simp] theorem getFCI_nextPromiseId (s : Detector) (b : Bool) :
    (getFirstConsistentlyInteractive s b).nextPromiseId = s.nextPromiseId + 1 := by
  cases b <;> simp [getFirstConsistentlyInteractive]

theorem run_nextPromiseId {evs : List Ev} (h : ∀ e ∈ evs, e.isGetFCI = false) :
    ∀ s : Detector, (run s evs).nextPromiseId = s.nextPromiseId := by
  induction evs with
  | nil => intro s; rfl
  | cons e evs ih =>
    intro s
    rw [run_cons, ih (fun x hx => h x (List.mem_cons_of_mem _ hx))]
    exact step_nextPromiseId (h e (List.mem_cons_self _ _))

/-! ### Claim C1 -/

/-- C1 (amended): whenever a detection attempt obtains a present **nonzero**
result from the detection engine, it invokes the stored resolver with that
result, cancels the armed timer (`disable()` runs), turns scheduling off, and
is terminal: starting from a not-yet-resolved state whose `load` listener has
been consumed, the resolution journal becomes that single entry and stays so
across every further benign event (anything except re-invoking the public
entry points), no timer is armed again — in particular the unconditional
end-of-check `rescheduleTimer(performance.now() + 1000)` arms nothing after
resolution — and no further timer-driven `_checkTTI` can execute.  (For a
present result of `0` the claim as stated fails, because the truthiness test
`if (maybeFCI)` drops it: see the counterexample.) -/
theorem checkTTI_nonzero_result_resolves_and_terminates
    (E : DetectionEngine) (env : CheckEnv) (s : Detector) (r : Int)
    (hE : maybeFCIOf E env s = some r) (hr : r ≠ 0)
    (hres : s.resolutions = []) (hll : s.loadListeners = 0)
    (evs : List Ev) (hevs : ∀ e ∈ evs, e.benign = true) :
    (checkTTI E env s).resolutions = [(s.resolver, r)] ∧
    (checkTTI E env s).armed = false ∧
    (checkTTI E env s).scheduleTimerTasks = false ∧
    (run (checkTTI E env s) evs).resolutions = [(s.resolver, r)] ∧
    (run (checkTTI E env s) evs).armed = false ∧
    (run (checkTTI E env s) evs).scheduleTimerTasks = false := by
  have heq := checkTTI_resolved hE hr
  have h1 : (checkTTI E env s).resolutions = [(s.resolver, r)] := by
    rw [heq]
    simp [hres]
  have h2 : (checkTTI E env s).armed = false := by rw [heq]; simp
  have h3 : (checkTTI E env s).scheduleTimerTasks = false := by rw [heq]; simp
  have h4 : (checkTTI E env s).loadListeners = 0 := by
    rw [checkTTI_loadListeners]
    exact hll
  obtain ⟨⟨d1, d2, _⟩, dres⟩ := dead_run (s := checkTTI E env s) ⟨h3, h2, h4⟩ hevs
  exact ⟨h1, h2, h3, dres.trans h1, d2, d1⟩

/-- C1 witness: a loaded page with DOMContentLoaded at 3000 ms and a quiet
network: the check at `now = 8000` finds the nonzero result `2000`, resolves
promise 0 with it, and a later reschedule plus a timer-fire attempt change
nothing. -/
theorem checkTTI_nonzero_result_resolves_and_terminates_witness :
    maybeFCIOf specEngine ⟨1000, 3000, none, 8000, 8000⟩
      (getFirstConsistentlyInteractive (initDetector none false) true) = some 2000 ∧
    (run (checkTTI specEngine ⟨1000, 3000, none, 8000, 8000⟩
        (getFirstConsistentlyInteractive (initDetector none false) true))
      [Ev.reschedule 9000,
        Ev.timerFire specEngine ⟨1000, 3000, none, 9000, 9000⟩]).resolutions =
      [(some 0, 2000)] ∧
    (run (checkTTI specEngine ⟨1000, 3000, none, 8000, 8000⟩
        (getFirstConsistentlyInteractive (initDetector none false) true))
      [Ev.reschedule 9000,
        Ev.timerFire specEngine ⟨1000, 3000, none, 9000, 9000⟩]).armed = false := by
  have h := checkTTI_nonzero_result_resolves_and_terminates specEngine
    ⟨1000, 3000, none, 8000, 8000⟩
    (getFirstConsistentlyInteractive (initDetector none false) true) 2000
    (by decide) (by decide) (by decide) (by decide)
    [Ev.reschedule 9000, Ev.timerFire specEngine ⟨1000, 3000, none, 9000, 9000⟩]
    (by
      intro e he
      rcases List.mem_cons.mp he with h1 | h1
      · rw [h1]; rfl
      · rw [List.mem_singleton.mp h1]; rfl)
  exact ⟨by decide, h.2.2.2.1.trans (by decide), h.2.2.2.2.1⟩

/-- C1 counterexample: a conformant run in which the engine returns the
present result `0` (DOMContentLoaded coincides with navigationStart and the
page has been quiet for five seconds): the truthiness test `if (maybeFCI)`
treats the present result as not found — the resolver is not invoked and the
end-of-check reschedule arms a fresh timer, so the attempt is not terminal,
refuting the claim as stated. -/
theorem checkTTI_zero_result_not_fulfilled_cex :
    maybeFCIOf specEngine ⟨1000, 1000, none, 6000, 6000⟩
      (getFirstConsistentlyInteractive (initDetector none false) true) = some 0 ∧
    (checkTTI specEngine ⟨1000, 1000, none, 6000, 6000⟩
      (getFirstConsistentlyInteractive (initDetector none false) true)).resolutions = [] ∧
    (checkTTI specEngine ⟨1000, 1000, none, 6000, 6000⟩
      (getFirstConsistentlyInteractive (initDetector none false) true)).armed = true := by
  decide

/-! ### Claim C4 -/

/-- C4 (code evaluation at the failing input): a timer-driven check on an
enabled detector before `domContentLoadedEventEnd` is available (the field is
`0`), with a Chrome first paint of `1000` and a quiet environment at
`now = 7000`.  `_getMinValue()` is `null`, so per the claim the attempt must
schedule `max(lastBusy + 5000, now + 1000)` and stop without calling the
engine or resolving — but the source lacks a `return` after the reschedule:
execution falls through, `computeFirstConsistentlyInteractive` is called with
the `null` minimum value, finds `1000`, and the promise is resolved. -/
theorem checkTTI_missing_minValue_still_resolves_bug :
    getMinValue (getFirstConsistentlyInteractive (initDetector none false) true)
      ⟨1000, 0, some 2000, 7000, 7000⟩ = none ∧
    maybeFCIOf specEngine ⟨1000, 0, some 2000, 7000, 7000⟩
      (getFirstConsistentlyInteractive (initDetector none false) true) = some 1000 ∧
    (checkTTI specEngine ⟨1000, 0, some 2000, 7000, 7000⟩
      (getFirstConsistentlyInteractive (initDetector none false) true)).resolutions =
      [(some 0, 1000)] ∧
    (checkTTI specEngine ⟨1000, 0, some 2000, 7000, 7000⟩
      (getFirstConsistentlyInteractive (initDetector none false) true)).scheduleTimerTasks =
      false := by
  decide

/-! ### Claim C7 -/

/-- C7: `getFirstConsistentlyInteractive` stores the resolver of the fresh
promise (id 0 on a new instance); when `document.readyState` is `complete` it
starts scheduling synchronously (a check is armed at target time 0),
otherwise it registers a one-shot hook on the `load` signal whose firing
starts the scheduling; and across any sequence of benign events the promise
resolves at most once, every resolver invocation going to the returned
promise. -/
theorem getFirstConsistentlyInteractive_lifecycle
    (cfg : Option Int) (mo ready : Bool) (evs : List Ev)
    (hevs : ∀ e ∈ evs, e.benign = true) :
    (ready = true →
      (getFirstConsistentlyInteractive (initDetector cfg mo) ready).scheduleTimerTasks = true ∧
      (getFirstConsistentlyInteractive (initDetector cfg mo) ready).armed = true ∧
      (getFirstConsistentlyInteractive (initDetector cfg mo) ready).timerActivationTime = some 0) ∧
    (ready = false →
      (getFirstConsistentlyInteractive (initDetector cfg mo) ready).scheduleTimerTasks = false ∧
      (getFirstConsistentlyInteractive (initDetector cfg mo) ready).armed = false ∧
      (getFirstConsistentlyInteractive (initDetector cfg mo) ready).loadListeners = 1 ∧
      (fireLoad (getFirstConsistentlyInteractive (initDetector cfg mo) ready)).scheduleTimerTasks = true ∧
      (fireLoad (getFirstConsistentlyInteractive (initDetector cfg mo) ready)).armed = true ∧
      (fireLoad (getFirstConsistentlyInteractive (initDetector cfg mo) ready)).loadListeners = 0) ∧
    (getFirstConsistentlyInteractive (initDetector cfg mo) ready).resolver = some 0 ∧
    (run (getFirstConsistentlyInteractive (initDetector cfg mo) ready) evs).resolutions.length ≤ 1 ∧
    (∀ pv ∈ (run (getFirstConsistentlyInteractive (initDetector cfg mo) ready) evs).resolutions,
      pv.1 = some 0) := by
  have hinv : LifecycleInv (getFirstConsistentlyInteractive (initDetector cfg mo) ready) := by
    cases ready with
    | true =>
      refine ⟨?_, ?_, ?_, ?_⟩ <;>
        simp [getFirstConsistentlyInteractive, startSchedulingTimerTasks,
          rescheduleTimer, initDetector, actGTb]
    | false =>
      refine ⟨?_, ?_, ?_, ?_⟩ <;>
        simp [getFirstConsistentlyInteractive, initDetector]
  have hrinv : ResolverInv (some 0) (getFirstConsistentlyInteractive (initDetector cfg mo) ready) := by
    constructor
    · rw [getFCI_resolver]
      rfl
    · intro pv hpv
      rw [getFCI_resolutions] at hpv
      cases hpv
  have hlrun : LifecycleInv (run (getFirstConsistentlyInteractive (initDetector cfg mo) ready) evs) :=
    run_preserve (fun x e hx he => lifecycle_step hx he) evs _ hevs hinv
  have hrrun : ResolverInv (some 0) (run (getFirstConsistentlyInteractive (initDetector cfg mo) ready) evs) :=
    run_preserve (fun x e hx he => resolver_step hx (benign_not_getFCI he)) evs _ hevs hrinv
  refine ⟨?_, ?_, ?_, hlrun.1, hrrun.2⟩
  · intro h
    subst h
    refine ⟨?_, ?_, ?_⟩ <;>
      simp [getFirstConsistentlyInteractive, startSchedulingTimerTasks,
        rescheduleTimer, initDetector, actGTb]
  · intro h
    subst h
    refine ⟨rfl, rfl, rfl, ?_, ?_, ?_⟩ <;>
      simp [fireLoad, iterEnable, getFirstConsistentlyInteractive,
        startSchedulingTimerTasks, rescheduleTimer, initDetector, actGTb]
  · rw [getFCI_resolver]
    rfl

/-- C7 witness: a loaded page, one timer fire that finds the result `2000`:
one resolution, to promise 0, with scheduling synchronously started. -/
theorem getFirstConsistentlyInteractive_lifecycle_witness :
    (getFirstConsistentlyInteractive (initDetector none false) true).scheduleTimerTasks = true ∧
    (run (getFirstConsistentlyInteractive (initDetector none false) true)
      [Ev.timerFire specEngine ⟨1000, 3000, none, 8000, 8000⟩]).resolutions.length ≤ 1 := by
  have h := getFirstConsistentlyInteractive_lifecycle none false true
    [Ev.timerFire specEngine ⟨1000, 3000, none, 8000, 8000⟩]
    (by
      intro e he
      rw [List.mem_singleton.mp he]
      rfl)
  exact ⟨(h.1 rfl).1, h.2.2.2.1⟩

/-! ### Claim C10 -/

/-- C10: when `getFirstConsistentlyInteractive` is called a second time on
the same instance (before any resolution has occurred), the stored resolver
is overwritten with the fresh promise id 1; from then on, across every event
that is not itself another `getFirstConsistentlyInteractive` call, every
resolver invocation goes to promise 1 — so only the promise returned by the
most recent call can ever fulfill, and the promise of the first call (id 0)
stays forever pending. -/
theorem second_getFirstConsistentlyInteractive_overwrites_resolver
    (cfg : Option Int) (mo r1 r2 : Bool) (evs0 evs : List Ev)
    (h0 : ∀ e ∈ evs0, e.isGetFCI = false)
    (h1 : ∀ e ∈ evs, e.isGetFCI = false)
    (hnores : (run (getFirstConsistentlyInteractive (initDetector cfg mo) r1) evs0).resolutions = []) :
    (getFirstConsistentlyInteractive (initDetector cfg mo) r1).resolver = some 0 ∧
    (getFirstConsistentlyInteractive
      (run (getFirstConsistentlyInteractive (initDetector cfg mo) r1) evs0) r2).resolver = some 1 ∧
    (∀ pv ∈ (run (getFirstConsistentlyInteractive
        (run (getFirstConsistentlyInteractive (initDetector cfg mo) r1) evs0) r2) evs).resolutions,
      pv.1 = some 1) := by
  have hmid : (run (getFirstConsistentlyInteractive (initDetector cfg mo) r1) evs0).nextPromiseId = 1 := by
    rw [run_nextPromiseId h0]
    rw [getFCI_nextPromiseId]
    rfl
  have hres2 : ResolverInv (some 1)
      (getFirstConsistentlyInteractive
        (run (getFirstConsistentlyInteractive (initDetector cfg mo) r1) evs0) r2) := by
    constructor
    · rw [getFCI_resolver, hmid]
    · intro pv hpv
      rw [getFCI_resolutions, hnores] at hpv
      cases hpv
  have hrun : ResolverInv (some 1)
      (run (getFirstConsistentlyInteractive
        (run (getFirstConsistentlyInteractive (initDetector cfg mo) r1) evs0) r2) evs) :=
    run_preserve (p := fun e => decide (e.isGetFCI = false))
      (fun x e hx he => resolver_step hx (of_decide_eq_true he)) evs _
      (fun e he => decide_eq_true (h1 e he)) hres2
  refine ⟨?_, hres2.1, hrun.2⟩
  rw [getFCI_resolver]
  rfl

/-- C10 witness: two immediate `getFirstConsistentlyInteractive` calls on a
loaded page: the first stores promise 0, the second overwrites it with
promise 1. -/
theorem second_getFirstConsistentlyInteractive_overwrites_resolver_witness :
    (getFirstConsistentlyInteractive (initDetector none false) true).resolver = some 0 ∧
    (getFirstConsistentlyInteractive
      (run (getFirstConsistentlyInteractive (initDetector none false) true) []) true).resolver =
      some 1 := by
  have h := second_getFirstConsistentlyInteractive_overwrites_resolver none false true true
    [] [Ev.timerFire specEngine ⟨1000, 3000, none, 8000, 8000⟩]
    (fun e he => absurd he (List.not_mem_nil e))
    (by
      intro e he
      rw [List.mem_singleton.mp he]
      rfl)
    (by decide)
  exact ⟨h.1, h.2.1⟩

end TTIPolyfill
